import Mathlib

/-!
Verification development for the tflite metadata dumper.

The tool (src/main.rs) reads a TFLite model file, locates the
`TFLITE_METADATA` entry in the root container, decodes its payload as a
model-metadata tree and renders that tree as an indented line-oriented text
report, dispatching `DETECTOR_METADATA`-tagged custom metadata blobs to a
detector-options sub-decoder with a bounded anchor-listing policy.

The embedding below models each decoded flatbuffers table as a structure of
optional fields (every field of the schemas is optional, except the
associated-file type tag), models values that the Rust code prints only via
their `Debug` representation as the `String` holding that representation,
and models each `println!` sequence as a `List String` of the emitted lines.
The three fallible flatbuffers root decoders live in the generated schema
access layer, which is external to the sources; they are taken as function
parameters of type `List Nat → Except String _` (bytes to decoded table or
error message), so every theorem holds for any decoder behavior.
-/

namespace Metadump

/-- A raw buffer of the root container: an optional byte sequence. -/
structure Buffer where
  data : Option (List Nat)
deriving Repr, DecidableEq

/-- A named metadata entry of the root container (`Metadata` table of the
TFLite schema): an optional name and a buffer index. -/
structure MetadataEntry where
  name : Option String
  buffer : Nat
deriving Repr, DecidableEq

/-- The root container (`Model` table of the TFLite schema), restricted to
the two fields the tool reads: the metadata entry list and the buffer pool. -/
structure Model where
  metadata : Option (List MetadataEntry)
  buffers : Option (List Buffer)
deriving Repr, DecidableEq

/-- An associated file record. The `type_` tag is the only non-optional
field; the Rust code prints it via `Debug`, so it is modelled as the string
of that representation. -/
structure AssociatedFile where
  name : Option String
  description : Option String
  type_ : String
  locale : Option String
  version : Option String
deriving Repr, DecidableEq

/-- A process unit, printed only through its `Debug` representation. -/
abbrev ProcessUnit := String

/-- A tensor group, printed only through its `Debug` representation. -/
abbrev TensorGroup := String

/-- An anchor record of the detector options, printed only through its
`Debug` representation. -/
abbrev Anchor := String

/-- Tensor-level metadata. `dimension_names`, `content` and `stats` are
printed via `Debug` and modelled as the strings of those representations. -/
structure TensorMetadata where
  name : Option String
  description : Option String
  dimension_names : Option String
  content : Option String
  stats : Option String
  associated_files : Option (List AssociatedFile)
  process_units : Option (List ProcessUnit)
deriving Repr, DecidableEq

/-- A custom metadata entry: a name tag plus an opaque byte blob. -/
structure CustomMetadata where
  name : Option String
  data : Option (List Nat)
deriving Repr, DecidableEq

/-- Subgraph-level metadata. -/
structure SubgraphMetadata where
  name : Option String
  description : Option String
  associated_files : Option (List AssociatedFile)
  input_tensor_metadata : Option (List TensorMetadata)
  output_tensor_metadata : Option (List TensorMetadata)
  input_process_units : Option (List ProcessUnit)
  output_process_units : Option (List ProcessUnit)
  input_tensor_groups : Option (List TensorGroup)
  output_tensor_groups : Option (List TensorGroup)
  custom_metadata : Option (List CustomMetadata)
deriving Repr, DecidableEq

/-- The model-metadata tree (`ModelMetadata` table). -/
structure ModelMetadata where
  name : Option String
  description : Option String
  version : Option String
  author : Option String
  license : Option String
  min_parser_version : Option String
  associated_files : Option (List AssociatedFile)
  subgraph_metadata : Option (List SubgraphMetadata)
deriving Repr, DecidableEq

/-- The fixed-anchors schema of the detector options: an optional anchor
list. -/
structure FixedAnchorsSchema where
  anchors : Option (List Anchor)
deriving Repr, DecidableEq

/-- The SSD anchors options of the detector options. -/
structure SsdAnchorsOptions where
  fixed_anchors_schema : Option FixedAnchorsSchema
deriving Repr, DecidableEq

/-- The detector options tree (`ObjectDetectorOptions` table).
`tensors_decoding_options` is printed via `Debug` and modelled as the string
of that representation. -/
structure ObjectDetectorOptions where
  min_parser_version : Option String
  tensors_decoding_options : Option String
  ssd_anchors_options : Option SsdAnchorsOptions
deriving Repr, DecidableEq

/-- Indentation: `Indent(n)` displays as `"  ".repeat(n)`, two spaces per level. -/
def indentStr : Nat → String
  | 0 => ""
  | n + 1 => "  " ++ indentStr n

/-- The display budget for anchors (`const PRINT: usize = 24`). -/
def PRINT : Nat := 24

/-- Lines printed for an anchor list (main.rs lines 146-160): the count
line, then either all anchors (when the count is within the budget) or the
first `PRINT / 2`, a `...k more` summary with `k = len - PRINT`, and the
anchors at indices `len - 1 - PRINT / 2 .. len`. -/
def renderAnchors (ind : String) (anchors : List Anchor) : List String :=
  (ind ++ "    " ++ toString anchors.length ++ " anchors") ::
  (if anchors.length ≤ PRINT then
    anchors.map (fun a => ind ++ "    - " ++ a)
  else
    (anchors.take (PRINT / 2)).map (fun a => ind ++ "    - " ++ a)
    ++ [ind ++ "    - ..." ++ toString (anchors.length - PRINT) ++ " more"]
    ++ ((List.range anchors.length).drop (anchors.length - 1 - PRINT / 2)).map
        (fun i => ind ++ "    - " ++ anchors.getD i ""))

/-- Function `decode_and_print_detector_metadata`: decodes the byte blob with the
detector-options decoder `d`; on failure the error propagates (nothing was
printed before the decode), on success the lines for the present fields. -/
def decode_and_print_detector_metadata
    (d : List Nat → Except String ObjectDetectorOptions)
    (indent : Nat) (bytes : List Nat) : Except String (List String) :=
  match d bytes with
  | .error e => .error e
  | .ok options =>
    let ind := indentStr indent
    .ok ((match options.min_parser_version with
          | some min => [ind ++ "min_parser_version: " ++ min]
          | none => [])
      ++ (match options.tensors_decoding_options with
          | some dec => [ind ++ "tensors_decoding_options: " ++ dec]
          | none => [])
      ++ (match options.ssd_anchors_options with
          | some ssd =>
            (ind ++ "ssd_anchor_options:") ::
            (match ssd.fixed_anchors_schema with
             | some fixed =>
               (ind ++ "  fixed_anchors_schema:") ::
               (match fixed.anchors with
                | some anchors => renderAnchors ind anchors
                | none => [])
             | none => [])
          | none => []))

/-- Function `print_assoc_files`: lines for a list of associated files. -/
def print_assoc_files (indent : Nat) (assoc : List AssociatedFile) : List String :=
  (assoc.map (fun file =>
    let ind := indentStr indent
    (ind ++ "- name: " ++ file.name.getD "<unnamed>")
    :: ((match file.description with
         | some desc => [ind ++ "  description: " ++ desc]
         | none => [])
      ++ [ind ++ "  type: " ++ file.type_]
      ++ (match file.locale with
          | some locale => [ind ++ "  locale: " ++ locale]
          | none => [])
      ++ (match file.version with
          | some version => [ind ++ "  version: " ++ version]
          | none => [])))).flatten

/-- Function `print_proc`: one line per process unit, via its `Debug` form. -/
def print_proc (indent : Nat) (pu : List ProcessUnit) : List String :=
  pu.map (fun p => indentStr indent ++ "- " ++ p)

/-- Function `print_tensor_meta`: lines for a list of tensor metadata records. -/
def print_tensor_meta (indent : Nat) (meta : List TensorMetadata) : List String :=
  (meta.map (fun tens =>
    let ind := indentStr indent
    (ind ++ "- name: " ++ tens.name.getD "<unnamed>")
    :: ((match tens.description with
         | some desc => [ind ++ "  description: " ++ desc]
         | none => [])
      ++ (match tens.dimension_names with
          | some dims => [ind ++ "  dimension names: " ++ dims]
          | none => [])
      ++ (match tens.content with
          | some cont => [ind ++ "  content: " ++ cont]
          | none => [])
      ++ (match tens.stats with
          | some stats => [ind ++ "  stats: " ++ stats]
          | none => [])
      ++ (match tens.associated_files with
          | some assoc =>
            (ind ++ "  " ++ toString assoc.length ++ " associated file(s):")
            :: print_assoc_files (indent + 1) assoc
          | none => [])
      ++ (match tens.process_units with
          | some pu =>
            (ind ++ "  " ++ toString pu.length ++ " process unit(s):")
            :: print_proc (indent + 1) pu
          | none => [])))).flatten

/-- Lines for one custom metadata entry (main.rs lines 110-123): name line,
byte-length line, then the dispatch on the name tag — `DETECTOR_METADATA`
runs the sub-decoder (a failure becomes an inline `decoding error` line),
anything else gets the fixed placeholder line. The Rust
`match custom.name() \x7b Some("DETECTOR_METADATA") => … , _ => … \x7d` is an
equality test against the one recognized tag. -/
def renderCustomEntry (d : List Nat → Except String ObjectDetectorOptions)
    (c : CustomMetadata) : List String :=
  let bytes := c.data.getD []
  ("    - name: " ++ c.name.getD "<unnamed>")
  :: ("      " ++ toString bytes.length ++ " bytes")
  :: (if c.name = some "DETECTOR_METADATA" then
        match decode_and_print_detector_metadata d 3 bytes with
        | .error e => ["      decoding error: " ++ e]
        | .ok lines => lines
      else
        ["      (unknown or unhandled format)"])

/-- Lines for one subgraph (main.rs lines 71-125). The associated-file
section reads `meta.associated_files()` — the top-level list — not the
subgraph's own. -/
def renderSubgraph (d : List Nat → Except String ObjectDetectorOptions)
    (meta : ModelMetadata) (sub : SubgraphMetadata) : List String :=
  ("- name: " ++ sub.name.getD "<unnamed>")
  :: ((match sub.description with
       | some desc => ["  description: " ++ desc]
       | none => [])
    ++ (match meta.associated_files with
        | some assoc =>
          ("  " ++ toString assoc.length ++ " associated file(s):")
          :: print_assoc_files 1 assoc
        | none => [])
    ++ (match sub.input_tensor_metadata with
        | some inp =>
          ("  - " ++ toString inp.length ++ " input tensor(s) with metadata")
          :: print_tensor_meta 2 inp
        | none => [])
    ++ (match sub.output_tensor_metadata with
        | some outp =>
          ("  - " ++ toString outp.length ++ " output tensor(s) with metadata")
          :: print_tensor_meta 2 outp
        | none => [])
    ++ (match sub.input_process_units with
        | some inp =>
          ("  - " ++ toString inp.length ++ " input tensor process units")
          :: print_proc 2 inp
        | none => [])
    ++ (match sub.output_process_units with
        | some outp =>
          ("  - " ++ toString outp.length ++ " output tensor process units")
          :: print_proc 2 outp
        | none => [])
    ++ (match sub.input_tensor_groups with
        | some groups =>
          ("  - " ++ toString groups.length ++ " input tensor groups")
          :: groups.map (fun group => "    - " ++ group)
        | none => [])
    ++ (match sub.output_tensor_groups with
        | some groups =>
          ("  - " ++ toString groups.length ++ " output tensor groups")
          :: groups.map (fun group => "    - " ++ group)
        | none => [])
    ++ (match sub.custom_metadata with
        | some custom =>
          ("  - " ++ toString custom.length ++ " custom metadata entries")
          :: (custom.map (renderCustomEntry d)).flatten
        | none => []))

/-- Lines for the whole decoded metadata tree (main.rs lines 47-126): the
six top-level scalar fields in fixed order, each only if present, then the
associated-file section, then the subgraph section. -/
def renderModelMetadata (d : List Nat → Except String ObjectDetectorOptions)
    (meta : ModelMetadata) : List String :=
  (match meta.name with
   | some name => ["name: " ++ name]
   | none => [])
  ++ (match meta.description with
      | some description => ["description: " ++ description]
      | none => [])
  ++ (match meta.version with
      | some version => ["version: " ++ version]
      | none => [])
  ++ (match meta.author with
      | some author => ["author: " ++ author]
      | none => [])
  ++ (match meta.license with
      | some license => ["license: " ++ license]
      | none => [])
  ++ (match meta.min_parser_version with
      | some mpv => ["min_parser_version: " ++ mpv]
      | none => [])
  ++ (match meta.associated_files with
      | some assoc =>
        (toString assoc.length ++ " associated file(s):")
        :: print_assoc_files 0 assoc
      | none => [])
  ++ (match meta.subgraph_metadata with
      | some subs =>
        (toString subs.length ++ " subgraph(s)")
        :: (subs.map (renderSubgraph d meta)).flatten
      | none => [])

/-- Modelled from the spec: resolution of a buffer index against the buffer
pool happens through the generated flatbuffers access layer
(`buffers.get(idx)` on the generated vector type), which is not among the
sources here; the spec defines the behavior as "if the index is out of range
or the buffer has no data, the resulting payload is the empty byte
sequence", so an out-of-range index resolves to a buffer with no data. -/
def resolveBuffer (buffers : List Buffer) (idx : Nat) : Buffer :=
  buffers.getD idx { data := none }

/-- The container locator (main.rs lines 28-44): require the metadata entry
list, find the first entry named `TFLITE_METADATA`, require the buffer
pool, resolve the entry's buffer index and take its bytes (empty when the
buffer has no data). -/
def locateMetadataBytes (m : Model) : Except String (List Nat) :=
  match m.metadata with
  | none => .error "model contains no metadata entries"
  | some entries =>
    match entries.find? (fun meta => meta.name == some "TFLITE_METADATA") with
    | none => .error "model contains no `TFLITE_METADATA` entry"
    | some entry =>
      match m.buffers with
      | none => .error "model contains no buffer list"
      | some buffers =>
        .ok ((resolveBuffer buffers entry.buffer).data.getD [])

/-- The decode-and-render pass on a decoded root container: locate the
metadata bytes, decode them with the metadata decoder `md`, render.
All output is produced after the locator and decoder succeed. -/
def runModel (md : List Nat → Except String ModelMetadata)
    (d : List Nat → Except String ObjectDetectorOptions)
    (m : Model) : Except String (List String) :=
  match locateMetadataBytes m with
  | .error e => .error e
  | .ok bytes =>
    match md bytes with
    | .error e => .error e
    | .ok meta => .ok (renderModelMetadata d meta)

/-- The full pass on the input bytes: decode the root container with the
root decoder `rd`, then run the locator, metadata decoder and renderer. -/
def runTool (rd : List Nat → Except String Model)
    (md : List Nat → Except String ModelMetadata)
    (d : List Nat → Except String ObjectDetectorOptions)
    (input : List Nat) : Except String (List String) :=
  match rd input with
  | .error e => .error e
  | .ok m => runModel md d m

/-- Helper used by the field-order theorem: the line a present optional
scalar field contributes (`lbl ++ ": " ++ value`), or no line when absent. -/
def optField (lbl : String) (o : Option String) : List String :=
  match o with
  | some s => [lbl ++ ": " ++ s]
  | none => []

/-- A concrete 25-element anchor list, one over the display budget. -/
def anchorsEx : List Anchor := (List.range 25).map (fun i => toString i)

/-- A concrete root decoder that always fails. -/
def rd0 : List Nat → Except String Model := fun _ => .error "root decode failed"

/-- A concrete metadata decoder that always fails. -/
def md0 : List Nat → Except String ModelMetadata := fun _ => .error "metadata decode failed"

/-- A concrete detector-options decoder that always fails. -/
def dd0 : List Nat → Except String ObjectDetectorOptions := fun _ => .error "detector decode failed"

/-- A concrete detector-options decoder that always succeeds with the empty
options table. -/
def dd1 : List Nat → Except String ObjectDetectorOptions := fun _ => .ok ⟨none, none, none⟩

/-- A concrete top-level associated file. -/
def afTop : AssociatedFile := ⟨some "top.txt", none, "DESCRIPTIONS", none, none⟩

/-- A concrete subgraph-level associated file, different from `afTop`. -/
def afSub : AssociatedFile := ⟨some "sub.txt", none, "DESCRIPTIONS", none, none⟩

/-- A concrete metadata tree whose top-level associated-file list is
`[afTop]`. -/
def metaAssocEx : ModelMetadata := ⟨none, none, none, none, none, none, some [afTop], none⟩

/-- A concrete subgraph whose own associated-file list is `[afSub]`,
differing from the top-level list of `metaAssocEx`. -/
def subAssocEx : SubgraphMetadata :=
  ⟨none, none, some [afSub], none, none, none, none, none, none, none⟩

/-- A concrete custom metadata entry tagged `DETECTOR_METADATA` with a
payload every decoder used here rejects. -/
def cDetEx : CustomMetadata := ⟨some "DETECTOR_METADATA", some [1]⟩

/-- A concrete metadata tree with every field absent. -/
def metaEmptyEx : ModelMetadata := ⟨none, none, none, none, none, none, none, none⟩

/-- A concrete subgraph holding three custom entries: one unrecognized, the
corrupt `DETECTOR_METADATA` entry `cDetEx`, then another unrecognized one. -/
def subCustomEx : SubgraphMetadata :=
  ⟨none, none, none, none, none, none, none, none, none,
   some [⟨some "A", none⟩, cDetEx, ⟨some "B", none⟩]⟩

/-- Claim C7: for every metadata tree, the renderer prints the six top-level
scalar fields first, in the fixed order name, description, version, author,
license, min-parser-version, each contributing exactly its one labelled line
when present and no line when absent, before the associated-file section and
the subgraph section. -/
theorem scalar_fields_first_in_fixed_order
    (d : List Nat → Except String ObjectDetectorOptions) (meta : ModelMetadata) :
    renderModelMetadata d meta =
      optField "name" meta.name
      ++ optField "description" meta.description
      ++ optField "version" meta.version
      ++ optField "author" meta.author
      ++ optField "license" meta.license
      ++ optField "min_parser_version" meta.min_parser_version
      ++ ((match meta.associated_files with
           | some assoc =>
             (toString assoc.length ++ " associated file(s):")
             :: print_assoc_files 0 assoc
           | none => [])
        ++ (match meta.subgraph_metadata with
            | some subs =>
              (toString subs.length ++ " subgraph(s)")
              :: (subs.map (renderSubgraph d meta)).flatten
            | none => []))
    ∧ (∀ lbl s, optField lbl (some s) = [lbl ++ ": " ++ s])
    ∧ (∀ lbl, optField lbl none = ([] : List String)) := by
  refine ⟨?_, fun lbl s => rfl, fun lbl => rfl⟩
  obtain ⟨n, de, v, a, l, mp, af, sg⟩ := meta
  cases n <;> cases de <;> cases v <;> cases a <;> cases l <;> cases mp <;>
    simp [renderModelMetadata, optField]

/-- Claim C8: the decode-and-render pass is a deterministic function of the
input bytes alone — byte-identical inputs give identical output. -/
theorem run_deterministic (rd : List Nat → Except String Model)
    (md : List Nat → Except String ModelMetadata)
    (d : List Nat → Except String ObjectDetectorOptions)
    (input input' : List Nat) (h : input = input') :
    runTool rd md d input = runTool rd md d input' := by
  rw [h]

/-- Witness for C8 at a concrete input. -/
theorem run_deterministic_witness :
    ([0, 1, 2] : List Nat) = [0, 1, 2]
    ∧ runTool rd0 md0 dd0 [0, 1, 2] = runTool rd0 md0 dd0 [0, 1, 2] :=
  ⟨rfl, run_deterministic rd0 md0 dd0 [0, 1, 2] [0, 1, 2] rfl⟩

/-- Claim C5: a custom metadata entry whose name tag is absent or differs
from `DETECTOR_METADATA` renders as its name line, its byte-length line and
the fixed placeholder line, and the result never depends on the detector
decoder — no decode of the payload is attempted. -/
theorem unknown_tag_renders_placeholder
    (d d' : List Nat → Except String ObjectDetectorOptions)
    (c : CustomMetadata) (h : c.name ≠ some "DETECTOR_METADATA") :
    renderCustomEntry d c =
      [("    - name: " ++ c.name.getD "<unnamed>"),
       ("      " ++ toString (c.data.getD []).length ++ " bytes"),
       "      (unknown or unhandled format)"]
    ∧ renderCustomEntry d c = renderCustomEntry d' c := by
  constructor <;> simp [renderCustomEntry, h]

/-- Witness for C5 at a concrete entry. -/
theorem unknown_tag_renders_placeholder_witness :
    (⟨some "OTHER", some [1, 2, 3]⟩ : CustomMetadata).name ≠ some "DETECTOR_METADATA"
    ∧ (renderCustomEntry dd0 ⟨some "OTHER", some [1, 2, 3]⟩ =
        [("    - name: " ++ (some "OTHER").getD "<unnamed>"),
         ("      " ++ toString ((some [1, 2, 3] : Option (List Nat)).getD []).length ++ " bytes"),
         "      (unknown or unhandled format)"]
      ∧ renderCustomEntry dd0 ⟨some "OTHER", some [1, 2, 3]⟩ =
          renderCustomEntry dd1 ⟨some "OTHER", some [1, 2, 3]⟩) :=
  ⟨by decide, unknown_tag_renders_placeholder dd0 dd1 ⟨some "OTHER", some [1, 2, 3]⟩ (by decide)⟩

/-- Claim C10: a custom metadata entry whose data field is absent is
rendered with the empty payload — its byte-length line reads `0 bytes` —
and when it is additionally tagged `DETECTOR_METADATA` and the decoder
fails on the empty payload (as flatbuffers root decoding does), the
failure becomes the inline decoding-error line, not a fatal error. -/
theorem absent_data_renders_zero_bytes
    (d : List Nat → Except String ObjectDetectorOptions)
    (c : CustomMetadata) (e : String) (hdata : c.data = none) :
    (∃ rest, renderCustomEntry d c =
      ("    - name: " ++ c.name.getD "<unnamed>") :: "      0 bytes" :: rest)
    ∧ (c.name = some "DETECTOR_METADATA" → d [] = .error e →
        renderCustomEntry d c =
          [("    - name: " ++ "DETECTOR_METADATA"), "      0 bytes",
           "      decoding error: " ++ e]) := by
  constructor
  · refine ⟨if c.name = some "DETECTOR_METADATA" then
        (match decode_and_print_detector_metadata d 3 [] with
         | .error er => ["      decoding error: " ++ er]
         | .ok lines => lines)
      else ["      (unknown or unhandled format)"], ?_⟩
    unfold renderCustomEntry
    rw [hdata]
    rfl
  · intro hname herr
    simp [renderCustomEntry, decode_and_print_detector_metadata, hdata, hname, herr]
    rfl

/-- Witness for C10 at a concrete entry. -/
theorem absent_data_renders_zero_bytes_witness :
    (⟨some "DETECTOR_METADATA", none⟩ : CustomMetadata).data = none
    ∧ ((∃ rest, renderCustomEntry dd0 ⟨some "DETECTOR_METADATA", none⟩ =
        ("    - name: " ++ (some "DETECTOR_METADATA").getD "<unnamed>") :: "      0 bytes" :: rest)
      ∧ ((⟨some "DETECTOR_METADATA", none⟩ : CustomMetadata).name = some "DETECTOR_METADATA" →
          dd0 [] = .error "detector decode failed" →
          renderCustomEntry dd0 ⟨some "DETECTOR_METADATA", none⟩ =
            [("    - name: " ++ "DETECTOR_METADATA"), "      0 bytes",
             "      decoding error: " ++ "detector decode failed"])) :=
  ⟨rfl, absent_data_renders_zero_bytes dd0 ⟨some "DETECTOR_METADATA", none⟩
    "detector decode failed" rfl⟩

/-- Searching an appended list with `find?` returns the first match when everything
before it fails the predicate. -/
theorem find?_append_first {α : Type} (p : α → Bool) (pre post : List α) (x : α)
    (hx : p x = true) (hpre : ∀ e ∈ pre, p e = false) :
    (pre ++ x :: post).find? p = some x := by
  induction pre with
  | nil => simp [List.find?_cons, hx]
  | cons a as ih =>
    have ha := hpre a (by simp)
    rw [List.cons_append, List.find?_cons, ha]
    exact ih (fun e he => hpre e (by simp [he]))

/-- Claim C2: when the matched `TFLITE_METADATA` entry's buffer index is out
of range for the buffer pool, or the referenced buffer has no data, the
locator succeeds with the empty byte sequence — no error, no crash — and
the failure surfaces only at the next decoding stage, which receives the
empty payload. -/
theorem bad_buffer_gives_empty_payload (m : Model) (entries : List MetadataEntry)
    (entry : MetadataEntry) (buffers : List Buffer)
    (h1 : m.metadata = some entries)
    (h2 : entries.find? (fun meta => meta.name == some "TFLITE_METADATA") = some entry)
    (h3 : m.buffers = some buffers)
    (h4 : buffers.length ≤ entry.buffer ∨ (resolveBuffer buffers entry.buffer).data = none) :
    locateMetadataBytes m = .ok []
    ∧ ∀ md d, runModel md d m =
        (match md [] with
         | .error e => .error e
         | .ok meta => .ok (renderModelMetadata d meta)) := by
  have hdata : (resolveBuffer buffers entry.buffer).data = none := by
    rcases h4 with h4 | h4
    · unfold resolveBuffer
      rw [List.getD_eq_default _ _ h4]
    · exact h4
  have hloc : locateMetadataBytes m = .ok [] := by
    simp [locateMetadataBytes, h1, h2, h3, hdata]
  exact ⟨hloc, fun md d => by simp [runModel, hloc]⟩

/-- Witness for C2 at a concrete container whose entry points past the end
of a one-buffer pool. -/
theorem bad_buffer_gives_empty_payload_witness :
    (⟨some [⟨some "TFLITE_METADATA", 5⟩], some [⟨some [1, 2]⟩]⟩ : Model).metadata =
      some [⟨some "TFLITE_METADATA", 5⟩]
    ∧ (locateMetadataBytes ⟨some [⟨some "TFLITE_METADATA", 5⟩], some [⟨some [1, 2]⟩]⟩ = .ok []
      ∧ ∀ md d, runModel md d ⟨some [⟨some "TFLITE_METADATA", 5⟩], some [⟨some [1, 2]⟩]⟩ =
          (match md [] with
           | .error e => .error e
           | .ok meta => .ok (renderModelMetadata d meta))) :=
  ⟨rfl, bad_buffer_gives_empty_payload _ [⟨some "TFLITE_METADATA", 5⟩]
    ⟨some "TFLITE_METADATA", 5⟩ [⟨some [1, 2]⟩] rfl rfl rfl (Or.inl (by decide))⟩

/-- Claim C6: the locator fails with the distinct no-metadata-entries error
when the container has no metadata entry list; when the list is present but
no entry is named `TFLITE_METADATA` it fails with exactly the
entry-not-found message — also through the whole run, so no report lines
are produced; when a matching entry exists but the container has no buffer
pool it fails with the distinct no-buffer-list error. -/
theorem locator_distinct_errors (m : Model) :
    (m.metadata = none →
      locateMetadataBytes m = .error "model contains no metadata entries")
    ∧ (∀ entries, m.metadata = some entries →
        (∀ e ∈ entries, e.name ≠ some "TFLITE_METADATA") →
        locateMetadataBytes m = .error "model contains no `TFLITE_METADATA` entry"
        ∧ ∀ md d, runModel md d m = .error "model contains no `TFLITE_METADATA` entry")
    ∧ (∀ entries entry, m.metadata = some entries →
        entries.find? (fun meta => meta.name == some "TFLITE_METADATA") = some entry →
        m.buffers = none →
        locateMetadataBytes m = .error "model contains no buffer list") := by
  refine ⟨fun h => by simp [locateMetadataBytes, h], ?_, ?_⟩
  · intro entries h1 hnone
    have hfind : entries.find? (fun meta => meta.name == some "TFLITE_METADATA") = none := by
      rw [List.find?_eq_none]
      intro x hx
      simpa using hnone x hx
    have hloc : locateMetadataBytes m = .error "model contains no `TFLITE_METADATA` entry" := by
      simp [locateMetadataBytes, h1, hfind]
    exact ⟨hloc, fun md d => by simp [runModel, hloc]⟩
  · intro entries entry h1 h2 h3
    simp [locateMetadataBytes, h1, h2, h3]

/-- Witness for C6 at three concrete containers, one per failure case. -/
theorem locator_distinct_errors_witness :
    locateMetadataBytes ⟨none, none⟩ = .error "model contains no metadata entries"
    ∧ (locateMetadataBytes ⟨some [⟨some "OTHER", 0⟩], some []⟩ =
        .error "model contains no `TFLITE_METADATA` entry"
      ∧ ∀ md d, runModel md d ⟨some [⟨some "OTHER", 0⟩], some []⟩ =
          .error "model contains no `TFLITE_METADATA` entry")
    ∧ locateMetadataBytes ⟨some [⟨some "TFLITE_METADATA", 0⟩], none⟩ =
        .error "model contains no buffer list" :=
  ⟨(locator_distinct_errors ⟨none, none⟩).1 rfl,
   (locator_distinct_errors _).2.1 [⟨some "OTHER", 0⟩] rfl (by decide),
   (locator_distinct_errors _).2.2 [⟨some "TFLITE_METADATA", 0⟩]
     ⟨some "TFLITE_METADATA", 0⟩ rfl rfl rfl⟩

/-- Claim C9: when several entries are named `TFLITE_METADATA`, the locator
selects the first one in stored order; entries before it whose name differs
(or is absent) are skipped without error, and the payload comes from the
selected entry's buffer index. -/
theorem first_matching_entry_selected (m : Model) (pre post : List MetadataEntry)
    (entry : MetadataEntry) (buffers : List Buffer)
    (h1 : m.metadata = some (pre ++ entry :: post))
    (hname : entry.name = some "TFLITE_METADATA")
    (hpre : ∀ e ∈ pre, e.name ≠ some "TFLITE_METADATA")
    (h3 : m.buffers = some buffers) :
    (pre ++ entry :: post).find? (fun meta => meta.name == some "TFLITE_METADATA") = some entry
    ∧ locateMetadataBytes m = .ok ((resolveBuffer buffers entry.buffer).data.getD []) := by
  have hfind :
      (pre ++ entry :: post).find? (fun meta => meta.name == some "TFLITE_METADATA") =
        some entry := by
    refine find?_append_first _ pre post entry (by simp [hname]) (fun e he => ?_)
    simpa using hpre e he
  exact ⟨hfind, by simp [locateMetadataBytes, h1, hfind, h3]⟩

/-- Witness for C9: a skipped non-matching entry, then the selected entry,
then a second matching entry that is ignored; the payload is the selected
entry's buffer, here byte `9` from buffer index 1. -/
theorem first_matching_entry_selected_witness :
    (⟨some "TFLITE_METADATA", 1⟩ : MetadataEntry).name = some "TFLITE_METADATA"
    ∧ ((resolveBuffer [⟨some [7]⟩, ⟨some [9]⟩] 1).data.getD [] = ([9] : List Nat))
    ∧ ((([⟨some "OTHER", 0⟩] : List MetadataEntry) ++
          (⟨some "TFLITE_METADATA", 1⟩ : MetadataEntry) :: [⟨some "TFLITE_METADATA", 0⟩]).find?
        (fun meta => meta.name == some "TFLITE_METADATA") = some ⟨some "TFLITE_METADATA", 1⟩
      ∧ locateMetadataBytes
          ⟨some (([⟨some "OTHER", 0⟩] : List MetadataEntry) ++
            (⟨some "TFLITE_METADATA", 1⟩ : MetadataEntry) :: [⟨some "TFLITE_METADATA", 0⟩]),
           some [⟨some [7]⟩, ⟨some [9]⟩]⟩ =
          .ok ((resolveBuffer [⟨some [7]⟩, ⟨some [9]⟩]
            (⟨some "TFLITE_METADATA", 1⟩ : MetadataEntry).buffer).data.getD [])) :=
  ⟨rfl, rfl,
   first_matching_entry_selected _ [⟨some "OTHER", 0⟩] [⟨some "TFLITE_METADATA", 0⟩]
     ⟨some "TFLITE_METADATA", 1⟩ [⟨some [7]⟩, ⟨some [9]⟩] rfl rfl (by decide) rfl⟩

/-- Claim C3: the associated-file count and listing printed under a
subgraph come from the top-level associated-file list, not the subgraph's
own — the output is unchanged under any replacement of the subgraph's own
list, and the printed section is the one computed from the top-level
list. -/
theorem subgraph_assoc_files_from_top_level
    (d : List Nat → Except String ObjectDetectorOptions)
    (meta : ModelMetadata) (sub : SubgraphMetadata) (l : List AssociatedFile)
    (hm : meta.associated_files = some l) :
    (∀ x, renderSubgraph d meta { sub with associated_files := x } =
        renderSubgraph d meta sub)
    ∧ ∃ pre post, renderSubgraph d meta sub =
        pre
        ++ (("  " ++ toString l.length ++ " associated file(s):") :: print_assoc_files 1 l)
        ++ post := by
  constructor
  · intro x
    obtain ⟨n, de, af, itm, otm, ipu, opu, itg, otg, cm⟩ := sub
    rfl
  · refine ⟨("- name: " ++ sub.name.getD "<unnamed>") ::
      (match sub.description with
       | some desc => ["  description: " ++ desc]
       | none => []),
      (match sub.input_tensor_metadata with
       | some inp =>
         ("  - " ++ toString inp.length ++ " input tensor(s) with metadata")
         :: print_tensor_meta 2 inp
       | none => [])
      ++ (match sub.output_tensor_metadata with
          | some outp =>
            ("  - " ++ toString outp.length ++ " output tensor(s) with metadata")
            :: print_tensor_meta 2 outp
          | none => [])
      ++ (match sub.input_process_units with
          | some inp =>
            ("  - " ++ toString inp.length ++ " input tensor process units")
            :: print_proc 2 inp
          | none => [])
      ++ (match sub.output_process_units with
          | some outp =>
            ("  - " ++ toString outp.length ++ " output tensor process units")
            :: print_proc 2 outp
          | none => [])
      ++ (match sub.input_tensor_groups with
          | some groups =>
            ("  - " ++ toString groups.length ++ " input tensor groups")
            :: groups.map (fun group => "    - " ++ group)
          | none => [])
      ++ (match sub.output_tensor_groups with
          | some groups =>
            ("  - " ++ toString groups.length ++ " output tensor groups")
            :: groups.map (fun group => "    - " ++ group)
          | none => [])
      ++ (match sub.custom_metadata with
          | some custom =>
            ("  - " ++ toString custom.length ++ " custom metadata entries")
            :: (custom.map (renderCustomEntry d)).flatten
          | none => []), ?_⟩
    simp [renderSubgraph, hm, List.append_assoc]

/-- Witness for C3: concrete top-level and subgraph-level lists that
differ; the printed section is the top-level one. -/
theorem subgraph_assoc_files_from_top_level_witness :
    metaAssocEx.associated_files = some [afTop]
    ∧ ([afTop] ≠ [afSub] ∧ subAssocEx.associated_files = some [afSub])
    ∧ ((∀ x, renderSubgraph dd1 metaAssocEx { subAssocEx with associated_files := x } =
          renderSubgraph dd1 metaAssocEx subAssocEx)
      ∧ ∃ pre post, renderSubgraph dd1 metaAssocEx subAssocEx =
          pre
          ++ (("  " ++ toString (List.length [afTop]) ++ " associated file(s):")
              :: print_assoc_files 1 [afTop])
          ++ post) :=
  ⟨rfl, ⟨by decide, rfl⟩,
   subgraph_assoc_files_from_top_level dd1 metaAssocEx subAssocEx [afTop] rfl⟩

/-- Claim C4: a custom entry tagged `DETECTOR_METADATA` whose payload the
detector decoder rejects renders as its name line, its byte-length line and
then immediately the inline decoding-error line; the failure is local — the
subgraph still renders the full custom section, with the entries before and
after this one rendered normally. -/
theorem detector_decode_error_inline
    (d : List Nat → Except String ObjectDetectorOptions)
    (meta : ModelMetadata) (sub : SubgraphMetadata)
    (pre post : List CustomMetadata) (c : CustomMetadata) (e : String)
    (hname : c.name = some "DETECTOR_METADATA")
    (herr : d (c.data.getD []) = .error e)
    (hcust : sub.custom_metadata = some (pre ++ c :: post)) :
    renderCustomEntry d c =
      [("    - name: " ++ "DETECTOR_METADATA"),
       ("      " ++ toString (c.data.getD []).length ++ " bytes"),
       ("      decoding error: " ++ e)]
    ∧ ∃ prefixLines, renderSubgraph d meta sub =
        prefixLines
        ++ (("  - " ++ toString (pre ++ c :: post).length ++ " custom metadata entries")
            :: ((pre.map (renderCustomEntry d)).flatten
              ++ renderCustomEntry d c
              ++ (post.map (renderCustomEntry d)).flatten)) := by
  have hc : renderCustomEntry d c =
      [("    - name: " ++ "DETECTOR_METADATA"),
       ("      " ++ toString (c.data.getD []).length ++ " bytes"),
       ("      decoding error: " ++ e)] := by
    simp [renderCustomEntry, decode_and_print_detector_metadata, hname, herr]
  refine ⟨hc, ?_⟩
  refine ⟨("- name: " ++ sub.name.getD "<unnamed>") ::
    ((match sub.description with
      | some desc => ["  description: " ++ desc]
      | none => [])
    ++ (match meta.associated_files with
        | some assoc =>
          ("  " ++ toString assoc.length ++ " associated file(s):")
          :: print_assoc_files 1 assoc
        | none => [])
    ++ (match sub.input_tensor_metadata with
        | some inp =>
          ("  - " ++ toString inp.length ++ " input tensor(s) with metadata")
          :: print_tensor_meta 2 inp
        | none => [])
    ++ (match sub.output_tensor_metadata with
        | some outp =>
          ("  - " ++ toString outp.length ++ " output tensor(s) with metadata")
          :: print_tensor_meta 2 outp
        | none => [])
    ++ (match sub.input_process_units with
        | some inp =>
          ("  - " ++ toString inp.length ++ " input tensor process units")
          :: print_proc 2 inp
        | none => [])
    ++ (match sub.output_process_units with
        | some outp =>
          ("  - " ++ toString outp.length ++ " output tensor process units")
          :: print_proc 2 outp
        | none => [])
    ++ (match sub.input_tensor_groups with
        | some groups =>
          ("  - " ++ toString groups.length ++ " input tensor groups")
          :: groups.map (fun group => "    - " ++ group)
        | none => [])
    ++ (match sub.output_tensor_groups with
        | some groups =>
          ("  - " ++ toString groups.length ++ " output tensor groups")
          :: groups.map (fun group => "    - " ++ group)
        | none => [])), ?_⟩
  simp [renderSubgraph, hcust, List.append_assoc]

/-- Witness for C4: three concrete custom entries, the corrupt detector
entry in the middle; the detector decoder always fails. -/
theorem detector_decode_error_inline_witness :
    cDetEx.name = some "DETECTOR_METADATA"
    ∧ dd0 (cDetEx.data.getD []) = .error "detector decode failed"
    ∧ subCustomEx.custom_metadata =
        some ([⟨some "A", none⟩] ++ cDetEx :: [⟨some "B", none⟩])
    ∧ (renderCustomEntry dd0 cDetEx =
        [("    - name: " ++ "DETECTOR_METADATA"),
         ("      " ++ toString (cDetEx.data.getD []).length ++ " bytes"),
         ("      decoding error: " ++ "detector decode failed")]
      ∧ ∃ prefixLines, renderSubgraph dd0 metaEmptyEx subCustomEx =
          prefixLines
          ++ (("  - " ++ toString (List.length ([⟨some "A", none⟩] ++ cDetEx :: [⟨some "B", none⟩]))
                ++ " custom metadata entries")
              :: ((([⟨some "A", none⟩] : List CustomMetadata).map (renderCustomEntry dd0)).flatten
                ++ renderCustomEntry dd0 cDetEx
                ++ (([⟨some "B", none⟩] : List CustomMetadata).map (renderCustomEntry dd0)).flatten))) :=
  ⟨rfl, rfl, rfl,
   detector_decode_error_inline dd0 metaEmptyEx subCustomEx
     [⟨some "A", none⟩] [⟨some "B", none⟩] cDetEx "detector decode failed" rfl rfl rfl⟩

/-- Reading a list at the indices `k, k+1, …, len-1` (with any default for
the in-bounds reads) yields exactly the dropped suffix. -/
theorem map_getD_range_drop {α : Type} (l : List α) (x : α) (k : Nat) :
    ((List.range l.length).drop k).map (fun i => l.getD i x) = l.drop k := by
  apply List.ext_getElem
  · simp
  · intro i h1 h2
    simp only [List.getElem_map, List.getElem_drop, List.getElem_range]
    rw [List.getD_eq_getElem]

/-- Counterexample to claim C1 as stated: with 25 anchors (one over the
budget), the lines printed after the summary line are not the last
`PRINT / 2 = 12` anchors — the index range `[N - 1 - 12, N)` holds 13
indices, so 13 trailing anchors are printed. -/
theorem anchor_truncation_claim_counterexample :
    PRINT < anchorsEx.length
    ∧ renderAnchors "" anchorsEx ≠
        ("" ++ "    " ++ toString anchorsEx.length ++ " anchors")
        :: ((anchorsEx.take (PRINT / 2)).map (fun a => "" ++ "    - " ++ a)
          ++ ["" ++ "    - ..." ++ toString (anchorsEx.length - PRINT) ++ " more"]
          ++ (anchorsEx.drop (anchorsEx.length - PRINT / 2)).map
              (fun a => "" ++ "    - " ++ a)) := by
  constructor
  · decide
  · decide

/-- Claim C1 (amended): for an anchor list longer than the budget
`PRINT = 24`, the renderer prints the count line, the first `PRINT / 2 = 12`
anchors in stored order, exactly one summary line stating `N - 24` as the
omitted count, and then the anchors at the index range `[N - 1 - 12, N)` in
stored order — the last `PRINT / 2 + 1 = 13` anchors. -/
theorem anchor_truncation (ind : String) (anchors : List Anchor)
    (h : PRINT < anchors.length) :
    renderAnchors ind anchors =
      (ind ++ "    " ++ toString anchors.length ++ " anchors")
      :: ((anchors.take (PRINT / 2)).map (fun a => ind ++ "    - " ++ a)
        ++ [ind ++ "    - ..." ++ toString (anchors.length - PRINT) ++ " more"]
        ++ (anchors.drop (anchors.length - 1 - PRINT / 2)).map
            (fun a => ind ++ "    - " ++ a))
    ∧ (anchors.drop (anchors.length - 1 - PRINT / 2)).length = PRINT / 2 + 1 := by
  have htail : ((List.range anchors.length).drop (anchors.length - 1 - PRINT / 2)).map
      (fun i => ind ++ "    - " ++ anchors.getD i "") =
      (anchors.drop (anchors.length - 1 - PRINT / 2)).map (fun a => ind ++ "    - " ++ a) := by
    rw [← map_getD_range_drop anchors "" (anchors.length - 1 - PRINT / 2), List.map_map]
    rfl
  constructor
  · unfold renderAnchors
    rw [if_neg (by omega), htail]
  · rw [List.length_drop]
    have hp : PRINT = 24 := rfl
    omega

/-- Witness for the amended C1 at the concrete 25-anchor list. -/
theorem anchor_truncation_witness :
    PRINT < anchorsEx.length
    ∧ (renderAnchors "" anchorsEx =
        ("" ++ "    " ++ toString anchorsEx.length ++ " anchors")
        :: ((anchorsEx.take (PRINT / 2)).map (fun a => "" ++ "    - " ++ a)
          ++ ["" ++ "    - ..." ++ toString (anchorsEx.length - PRINT) ++ " more"]
          ++ (anchorsEx.drop (anchorsEx.length - 1 - PRINT / 2)).map
              (fun a => "" ++ "    - " ++ a))
      ∧ (anchorsEx.drop (anchorsEx.length - 1 - PRINT / 2)).length = PRINT / 2 + 1) :=
  ⟨by decide, anchor_truncation "" anchorsEx (by decide)⟩

end Metadump
